import Mathlib

/-!
Shallow embedding of the `authy` Go package (src/authy.go): a thin client for
the Authy 2FA HTTP API.  Pure data (configuration, request construction, path
building, response envelopes) is translated directly; the single HTTP exchange
each operation performs is modelled by an explicit `NetResult` parameter
describing the outcome of the transport (`http.Client.Do`), the body read
(`ioutil.ReadAll`) and the JSON decode (`json.Unmarshal`) into the target
resource.  Errors are modelled as `Option String` (a Go `error` is `nil` or
carries a message).
-/

namespace Authy

/-- App configuration (src/authy.go lines 54-57): API secret and response
format selector, `"xml"` or `"json"`, defaulting to json. -/
structure App where
  ApiSecret : String
  ApiFormat : String
deriving Repr, DecidableEq

/-- Client (src/authy.go lines 48-52).  The embedded `http.Client` carries no
data relevant to the claims (only a fixed 20s timeout), so it is not modelled;
the base URL is kept as the string that `url.Parse` was given (parsing the
fixed well-formed base URL cannot fail). -/
structure Client where
  app : App
  baseURL : String
deriving Repr, DecidableEq

/-- Package-level base URL (src/authy.go line 45). -/
def baseUrl : String := "https://api.authy.com/protected/"

/-- NewClient (src/authy.go lines 60-76): picks the json base URL unless the
configured format is exactly `"xml"`.  The `url.Parse` error branch (return
nil) is unreachable for the two fixed well-formed URLs, so the model returns
the client directly. -/
def NewClient (a : App) : Client :=
  let urlWithFormat := if a.ApiFormat = "xml" then baseUrl ++ "xml/" else baseUrl ++ "json/"
  { app := a, baseURL := urlWithFormat }

/-- Uppercase hex digit for a value below 16, as `net/url` uses when
percent-escaping. -/
def hexDigit (n : Nat) : Char :=
  if n < 10 then Char.ofNat (48 + n) else Char.ofNat (55 + n)

/-- Percent-escape of one byte value: `"%XY"` with uppercase hex. -/
def escapeByte (b : Nat) : String :=
  String.mk ['%', hexDigit (b / 16), hexDigit (b % 16)]

/-- Modelled from `net/url.shouldEscape` in query-component mode: the byte
values left unescaped by `url.QueryEscape` are the ASCII alphanumerics and
`-` `_` `.` `~`. -/
def isUnreservedByte (b : Nat) : Bool :=
  (65 ≤ b && b ≤ 90) || (97 ≤ b && b ≤ 122) || (48 ≤ b && b ≤ 57) ||
    b == 45 || b == 95 || b == 46 || b == 126

/-- Modelled from `net/url.QueryEscape`: space becomes `+`, unreserved bytes
stay, every other byte is percent-escaped.  The client only ever escapes ASCII
data, so escaping is modelled per character (for ASCII, identical to Go's
per-byte escaping of the UTF-8 encoding). -/
def queryEscape (s : String) : String :=
  String.join (s.toList.map fun c =>
    let n := c.toNat
    if isUnreservedByte n then String.singleton c
    else if n == 32 then ("+")
    else escapeByte n)

/-- Strict lexicographic order on character lists by code point; for the
ASCII keys this client produces it coincides with the byte-wise string order
`sort.Strings` uses inside `url.Values.Encode`. -/
def keyLtL : List Char → List Char → Bool
  | [], [] => false
  | [], _ :: _ => true
  | _ :: _, [] => false
  | a :: as, b :: bs =>
    if a.toNat = b.toNat then keyLtL as bs else Nat.blt a.toNat b.toNat

/-- Strict lexicographic order on strings by code point. -/
def keyLt (a b : String) : Bool := keyLtL a.toList b.toList

/-- Insertion step for sorting key/value pairs by key, as
`url.Values.Encode` sorts its keys. -/
def insertByKey (kv : String × String) : List (String × String) → List (String × String)
  | [] => [kv]
  | x :: xs => if keyLt kv.1 x.1 then kv :: x :: xs else x :: insertByKey kv xs

/-- Sort key/value pairs by key (the keys this client produces are distinct,
so any sort agrees with Go's). -/
def sortByKey : List (String × String) → List (String × String)
  | [] => []
  | x :: xs => insertByKey x (sortByKey xs)

/-- Modelled from `url.Values.Encode`: sort by key, escape key and value with
`queryEscape`, join `key=value` pairs with `&`.  Each key this client produces
holds a single value. -/
def urlValuesEncode (vs : List (String × String)) : String :=
  String.intercalate ("&")
    ((sortByKey vs).map fun kv => queryEscape kv.1 ++ "=" ++ queryEscape kv.2)

/-- AuthyUser (src/authy.go lines 187-192), the body of the user-creation
request, with its go-querystring `url` tags:
`user[email],omitempty`, `user[cellphone]`, `user[country_code]`,
`send_install_link_via_sms,omitempty`. -/
structure AuthyUser where
  Email : String
  Cellphone : String
  CountryCode : String
  SendInstallLink : Bool
deriving Repr, DecidableEq

/-- Modelled from `query.Values` applied to `AuthyUser`: one pair per field in
struct order, a bool rendered as `"true"`/`"false"`, and `omitempty` fields
dropped at their zero value (empty string, false). -/
def authyUserValues (au : AuthyUser) : List (String × String) :=
  (if au.Email = "" then [] else [(("user[email]" : String), au.Email)]) ++
    [(("user[cellphone]" : String), au.Cellphone),
     (("user[country_code]" : String), au.CountryCode)] ++
    (if au.SendInstallLink then [(("send_install_link_via_sms" : String), "true")] else [])

/-- The request bodies the package ever passes to `NewRequest`: `nil` (for GET
paths and user removal) or an `AuthyUser` (for user creation). -/
inductive ReqBody where
  | noBody
  | userBody (au : AuthyUser)
deriving Repr, DecidableEq

/-- Body serialization in `NewRequest` (src/authy.go lines 89-97): a nil body
leaves `out` as the nil `url.Values`, whose `Encode()` is the empty string;
otherwise `query.Values` then `Encode`. -/
def ReqBody.encode : ReqBody → String
  | ReqBody.noBody => ""
  | ReqBody.userBody au => urlValuesEncode (authyUserValues au)

/-- Modelled from `(*url.URL).ResolveReference` for the references this client
builds: every relative path is scheme-less and host-less and does not begin
with `/`, and the base URL ends in `/` and has no query or fragment, so
resolution is concatenation. -/
def resolveReference (base rel : String) : String := base ++ rel

/-- The parts of the built `http.Request` the claims speak about. -/
structure Request where
  method : String
  url : String
  body : String
  headers : List (String × String)
deriving Repr, DecidableEq

/-- Header lookup (first value added under the name, as `Header.Get`). -/
def Request.header (r : Request) (k : String) : Option String :=
  (r.headers.find? fun kv => kv.1 == k).map Prod.snd

/-- NewRequest (src/authy.go lines 80-107): resolve the relative path against
the base URL, URL-encode the body, attach the four headers.  The error
branches (`url.Parse` of the relative path, `query.Values`,
`http.NewRequest`) cannot fire for the paths and bodies this package builds,
so the model is total. -/
def Client.NewRequest (c : Client) (method relPath : String) (body : ReqBody) : Request :=
  { method := method
    url := resolveReference c.baseURL relPath
    body := body.encode
    headers := [(("Content-Type" : String), "application/x-www-form-urlencoded"),
                (("Accept" : String), "application/json"),
                (("User-Agent" : String), "authy-go-client"),
                (("X-Authy-API-Key" : String), c.app.ApiSecret)] }

/-- App data returned from the app endpoint (src/authy.go lines 160-167). -/
structure authyAppInfo where
  Name : String
  Plan : String
  SmsEnabled : Bool
  PhoneCallsEnabled : Bool
  AppID : Int
  OnetouchEnabled : Bool
deriving Repr, DecidableEq

/-- Embedded user data in the API response (src/authy.go lines 181-183). -/
structure user where
  ID : Int
deriving Repr, DecidableEq

/-- Status sub-object of the response envelope (src/authy.go lines 242-249). -/
structure status where
  AuthyID : Int
  Confirmed : Bool
  Registered : Bool
  CountryCode : Int
  PhoneNumber : String
  Email : String
deriving Repr, DecidableEq

/-- Device sub-object of the response envelope (src/authy.go lines 328-341). -/
structure device where
  ID : Int
  OSType : Option String
deriving Repr, DecidableEq

/-- ResponseMessage (src/authy.go lines 170-178), the generic envelope most
endpoints decode into. -/
structure ResponseMessage where
  App : authyAppInfo
  User : user
  Status : status
  Device : device
  Token : String
  Message : String
  Success : Bool
deriving Repr, DecidableEq

/-- The Go zero value of `authyAppInfo`, as `new(ResponseMessage)` yields. -/
def authyAppInfo.zero : authyAppInfo := ⟨"", "", false, false, 0, false⟩

/-- The Go zero value of `user`. -/
def user.zero : user := ⟨0⟩

/-- The Go zero value of `status`. -/
def status.zero : status := ⟨0, false, false, 0, "", ""⟩

/-- The Go zero value of `device`. -/
def device.zero : device := ⟨0, none⟩

/-- The Go zero value of `ResponseMessage`, the state of the resource handed
to `Get`/`Post` before any decoding. -/
def ResponseMessage.zero : ResponseMessage :=
  ⟨authyAppInfo.zero, user.zero, status.zero, device.zero, "", "", false⟩

/-- Outcome of `json.Unmarshal` into a resource of type `α`: `err` is the
returned error (`none` when the body decoded), and `value` is the state of the
resource afterwards — on failure the fields decoded before the error (possibly
none) are kept, exactly as `json.Unmarshal` leaves a partially filled
target. -/
structure DecodeResult (α : Type) where
  err : Option String
  value : α
deriving Repr, DecidableEq

/-- Outcome of the single HTTP exchange an operation performs:
`doError` — `c.Client.Do` failed (its error message attached);
`readError` — a response with the given status arrived but
`ioutil.ReadAll` of its body failed;
`gotBody` — a response with the given status arrived and the body was
fully read, with the given `json.Unmarshal` outcome for the target type. -/
inductive NetResult (α : Type) where
  | doError (msg : String)
  | readError (stat : Nat) (msg : String)
  | gotBody (stat : Nat) (decode : DecodeResult α)
deriving Repr, DecidableEq

/-- Get (src/authy.go lines 118-136): build the request, run it, read the
body, decode.  Request building cannot fail in the model (see
`Client.NewRequest`); transport and read errors are returned and leave the
resource untouched; the `json.Unmarshal` error is discarded and nil is
returned.  `resource` is the state of the target before the call, and the
first component of the result its state after. -/
def Client.Get {α : Type} (c : Client) (relPath : String) (resource : α)
    (net : NetResult α) : α × Option String :=
  let _req := c.NewRequest ("GET") relPath ReqBody.noBody
  match net with
  | NetResult.doError m => (resource, some m)
  | NetResult.readError _ m => (resource, some m)
  | NetResult.gotBody _ d => (d.value, none)

/-- Post (src/authy.go lines 139-157): same shape as `Get` with a POST and a
body; the `json.Unmarshal` error is likewise discarded. -/
def Client.Post {α : Type} (c : Client) (relPath : String) (body : ReqBody) (resource : α)
    (net : NetResult α) : α × Option String :=
  let _req := c.NewRequest ("POST") relPath body
  match net with
  | NetResult.doError m => (resource, some m)
  | NetResult.readError _ m => (resource, some m)
  | NetResult.gotBody _ d => (d.value, none)

/-- GetAppInfo (src/authy.go lines 110-114): allocates a zero envelope, calls
`Get` discarding its error, and returns the envelope with a nil error. -/
def Client.GetAppInfo (c : Client) (net : NetResult ResponseMessage) :
    ResponseMessage × Option String :=
  let r := c.Get ("app/details") ResponseMessage.zero net
  (r.1, none)

/-- CreateUser (src/authy.go lines 196-212): reject an `AuthyUser` missing
cellphone or country code before any request; POST to `users/new`; propagate
the transport error; on a non-success envelope fail with
`AUTHY: create not successful <message>` (via `fmt.Errorf` with `%v`);
otherwise return the envelope's user id. -/
def Client.CreateUser (c : Client) (au : AuthyUser) (net : NetResult ResponseMessage) :
    Int × Option String :=
  if au.Cellphone = "" ∨ au.CountryCode = "" then
    (0, some ("AUTHY: insufficient data provided to create user"))
  else
    let r := c.Post ("users/new") (ReqBody.userBody au) ResponseMessage.zero net
    match r.2 with
    | some e => (0, some e)
    | none =>
      if !r.1.Success then
        (0, some ("AUTHY: create not successful " ++ r.1.Message))
      else
        (r.1.User.ID, none)

/-- RemoveUser (src/authy.go lines 215-228): POST to `users/<id>/remove`,
propagate the transport error, and on a non-success envelope fail with the
envelope's message (via `fmt.Errorf("%v", ...)`, so the error text is exactly
the message). -/
def Client.RemoveUser (c : Client) (authyUserID : Int) (net : NetResult ResponseMessage) :
    Option String :=
  let path := "users/" ++ toString authyUserID ++ "/remove"
  let r := c.Post path ReqBody.noBody ResponseMessage.zero net
  match r.2 with
  | some e => some e
  | none => if !r.1.Success then some r.1.Message else none

/-- Path construction in SendOTPWithAction (src/authy.go lines 261-269):
start from `sms/<id>`; when `action` is non-empty append `?action=<action>`,
and then, only inside that branch, when `actionMessage` is non-empty append
`&action_message=<actionMessage>`. -/
def sendOTPPath (authyUserID : Int) (action actionMessage : String) : String :=
  let path := "sms/" ++ toString authyUserID
  if action ≠ "" then
    let path := path ++ "?action=" ++ action
    if actionMessage ≠ "" then path ++ "&action_message=" ++ actionMessage
    else path
  else path

/-- SendOTPWithAction (src/authy.go lines 260-276): GET the constructed sms
path into a fresh envelope, returning the envelope together with the error of
`Get`. -/
def Client.SendOTPWithAction (c : Client) (authyUserID : Int) (action actionMessage : String)
    (net : NetResult ResponseMessage) : ResponseMessage × Option String :=
  let path := sendOTPPath authyUserID action actionMessage
  c.Get path ResponseMessage.zero net

/-- SendOTP (src/authy.go lines 253-255): `SendOTPWithAction` with empty
action and action message. -/
def Client.SendOTP (c : Client) (authyUserID : Int) (net : NetResult ResponseMessage) :
    ResponseMessage × Option String :=
  c.SendOTPWithAction authyUserID ("") ("") net

/-- The narrow anonymous struct CheckOTPToken decodes into
(src/authy.go lines 310-313): this endpoint serializes its success flag as a
string. -/
structure verifyMsg where
  Success : String
  Token : String
deriving Repr, DecidableEq

/-- CheckOTPToken (src/authy.go lines 284-326): reject a zero user id or empty
token before any request; propagate a `Do` error; treat any non-200 status as
`invalid token` before reading the body; propagate a body-read error; then
propagate a `json.Unmarshal` error; finally succeed exactly when the decoded
success string is `"true"` and the decoded token is `"is valid"`. -/
def Client.CheckOTPToken (c : Client) (authyUserID : Int) (token : String)
    (net : NetResult verifyMsg) : Bool × Option String :=
  if authyUserID = 0 ∨ token = "" then
    (false, some ("authyUserID or token not provided"))
  else
    let path := "verify/" ++ token ++ "/" ++ toString authyUserID
    let _req := c.NewRequest ("GET") path ReqBody.noBody
    match net with
    | NetResult.doError m => (false, some m)
    | NetResult.readError stat m =>
      if stat ≠ 200 then (false, some ("invalid token"))
      else (false, some m)
    | NetResult.gotBody stat d =>
      if stat ≠ 200 then (false, some ("invalid token"))
      else
        match d.err with
        | some e => (false, some e)
        | none =>
          if d.value.Success = "true" ∧ d.value.Token = "is valid" then (true, none)
          else (false, none)

/-- Whether the second character list is a leading segment of the first. -/
def charListHasPre : List Char → List Char → Bool
  | _, [] => true
  | [], _ :: _ => false
  | c :: cs, p :: ps => c == p && charListHasPre cs ps

/-- Whether the second character list occurs contiguously in the first. -/
def charListHasSub : List Char → List Char → Bool
  | [], sub => charListHasPre [] sub
  | c :: cs, sub => charListHasPre (c :: cs) sub || charListHasSub cs sub

/-- Whether `sub` occurs as a contiguous substring of `s`; used to state that
a query parameter does or does not appear in a request path. -/
def strHasSub (s sub : String) : Bool := charListHasSub s.toList sub.toList

/-! Theorems settling the claims. -/

/-- C5: a client built with `ApiFormat = "xml"` has base URL
`https://api.authy.com/protected/xml/`; with any other `ApiFormat` (the empty
string included) it has base URL `https://api.authy.com/protected/json/`. -/
theorem newClient_baseURL (a : App) :
    (NewClient a).baseURL =
      if a.ApiFormat = "xml" then "https://api.authy.com/protected/xml/"
      else "https://api.authy.com/protected/json/" := by
  by_cases h : a.ApiFormat = "xml" <;> simp [NewClient, baseUrl, h]

/-- C9: a request built by `NewRequest` has as URL the relative path resolved
against the client's base URL, as body the URL-encoded `key=value` form of the
body object's fields (with `omitempty`-tagged fields skipped when empty), and
carries the headers `Content-Type: application/x-www-form-urlencoded`,
`Accept: application/json`, the `User-Agent` client identifier, and the
configured API secret in `X-Authy-API-Key`. -/
theorem newRequest_spec (c : Client) (method relPath : String) (b : ReqBody) :
    (c.NewRequest method relPath b).url = resolveReference c.baseURL relPath ∧
    (c.NewRequest method relPath b).body = b.encode ∧
    (∀ au, b = ReqBody.userBody au →
        (c.NewRequest method relPath b).body = urlValuesEncode (authyUserValues au) ∧
        (au.Email = "" → ¬ (("user[email]" : String) ∈ (authyUserValues au).map Prod.fst)) ∧
        (au.SendInstallLink = false →
            ¬ (("send_install_link_via_sms" : String) ∈ (authyUserValues au).map Prod.fst))) ∧
    (c.NewRequest method relPath b).header ("Content-Type")
      = some ("application/x-www-form-urlencoded") ∧
    (c.NewRequest method relPath b).header ("Accept") = some ("application/json") ∧
    (c.NewRequest method relPath b).header ("User-Agent") = some ("authy-go-client") ∧
    (c.NewRequest method relPath b).header ("X-Authy-API-Key") = some c.app.ApiSecret := by
  refine ⟨rfl, rfl, ?_, rfl, rfl, rfl, rfl⟩
  rintro au rfl
  refine ⟨rfl, ?_, ?_⟩
  · intro he
    by_cases hl : au.SendInstallLink <;> simp [authyUserValues, he, hl]
  · intro hs
    by_cases he : au.Email = "" <;> simp [authyUserValues, hs, he]

/-- C9 witness: a concrete request built by `NewRequest`. -/
theorem newRequest_spec_witness :
    ((NewClient ⟨"verysecret", ""⟩).NewRequest ("GET") ("users/new")
        (ReqBody.userBody ⟨"", "111111111", "61", false⟩)).body
      = "user%5Bcellphone%5D=111111111&user%5Bcountry_code%5D=61" ∧
    ((NewClient ⟨"verysecret", ""⟩).NewRequest ("GET") ("users/new")
        (ReqBody.userBody ⟨"", "111111111", "61", false⟩)).header ("X-Authy-API-Key")
      = some ("verysecret") := by
  have h := newRequest_spec (NewClient ⟨"verysecret", ""⟩) ("GET") ("users/new")
      (ReqBody.userBody ⟨"", "111111111", "61", false⟩)
  refine ⟨?_, h.2.2.2.2.2.2⟩
  have hb := (h.2.2.1 ⟨"", "111111111", "61", false⟩ rfl).1
  rw [hb]
  decide

/-- C1: `CheckOTPToken` with a non-zero user id and non-empty token: any
response with status other than 200 yields `(false, some "invalid token")`
regardless of body content; a status-200 response whose body decodes yields
`(true, none)` exactly when the decoded success field is `"true"` and the
decoded token field is `"is valid"`, and `(false, none)` for every other
combination; a status-200 response whose body fails to decode yields `false`
with the decode error. -/
theorem checkOTPToken_spec (c : Client) (id : Int) (tok : String)
    (hid : id ≠ 0) (htok : tok ≠ "") :
    (∀ stat m, stat ≠ 200 →
        c.CheckOTPToken id tok (NetResult.readError stat m)
          = (false, some ("invalid token"))) ∧
    (∀ stat d, stat ≠ 200 →
        c.CheckOTPToken id tok (NetResult.gotBody stat d)
          = (false, some ("invalid token"))) ∧
    (∀ d : DecodeResult verifyMsg, d.err = none →
        c.CheckOTPToken id tok (NetResult.gotBody 200 d)
          = if d.value.Success = "true" ∧ d.value.Token = "is valid" then (true, none)
            else (false, none)) ∧
    (∀ d : DecodeResult verifyMsg, ∀ e, d.err = some e →
        c.CheckOTPToken id tok (NetResult.gotBody 200 d) = (false, some e)) := by
  refine ⟨?_, ?_, ?_, ?_⟩
  · intro stat m hstat
    simp [Client.CheckOTPToken, hid, htok, hstat]
  · intro stat d hstat
    simp [Client.CheckOTPToken, hid, htok, hstat]
  · rintro ⟨de, dv⟩ hd
    simp only at hd
    subst hd
    by_cases hs : dv.Success = "true" ∧ dv.Token = "is valid" <;>
      simp [Client.CheckOTPToken, hid, htok, hs]
  · rintro ⟨de, dv⟩ e hd
    simp only at hd
    subst hd
    simp [Client.CheckOTPToken, hid, htok]

/-- C1 witness: a valid verification at a concrete input. -/
theorem checkOTPToken_spec_witness :
    (1 : Int) ≠ 0 ∧ ("t" : String) ≠ "" ∧
    (NewClient ⟨"s", ""⟩).CheckOTPToken 1 ("t")
        (NetResult.gotBody 200 ⟨none, ⟨"true", "is valid"⟩⟩) = (true, none) := by
  refine ⟨by decide, by decide, ?_⟩
  have h := (checkOTPToken_spec (NewClient ⟨"s", ""⟩) 1 ("t") (by decide) (by decide)).2.2.1
      ⟨none, ⟨"true", "is valid"⟩⟩ rfl
  simpa using h

/-- C4: `CheckOTPToken` with a zero user id or an empty token fails with
`authyUserID or token not provided`, and its result does not depend on the
network outcome — no HTTP request is consulted. -/
theorem checkOTPToken_emptyArgs (c : Client) (id : Int) (tok : String)
    (h : id = 0 ∨ tok = "") (net net' : NetResult verifyMsg) :
    c.CheckOTPToken id tok net = (false, some ("authyUserID or token not provided")) ∧
    c.CheckOTPToken id tok net = c.CheckOTPToken id tok net' := by
  constructor <;> simp [Client.CheckOTPToken, h]

/-- C4 witness: a concrete rejected call. -/
theorem checkOTPToken_emptyArgs_witness :
    (NewClient ⟨"s", ""⟩).CheckOTPToken 0 ("x")
        (NetResult.gotBody 200 ⟨none, ⟨"true", "is valid"⟩⟩)
      = (false, some ("authyUserID or token not provided")) :=
  (checkOTPToken_emptyArgs (NewClient ⟨"s", ""⟩) 0 ("x") (Or.inl rfl)
    (NetResult.gotBody 200 ⟨none, ⟨"true", "is valid"⟩⟩)
    (NetResult.doError ("boom"))).1

/-- C2: `CreateUser` with an empty cellphone or country code fails with
`AUTHY: insufficient data provided to create user` and (0), and its result
does not depend on the network outcome — the request is rejected before any
HTTP call. -/
theorem createUser_missingData (c : Client) (au : AuthyUser)
    (h : au.Cellphone = "" ∨ au.CountryCode = "") (net net' : NetResult ResponseMessage) :
    c.CreateUser au net = (0, some ("AUTHY: insufficient data provided to create user")) ∧
    c.CreateUser au net = c.CreateUser au net' := by
  constructor <;> simp [Client.CreateUser, h]

/-- C2 witness: a concrete rejected user creation. -/
theorem createUser_missingData_witness :
    (NewClient ⟨"s", ""⟩).CreateUser ⟨"", "", "61", false⟩
        (NetResult.doError ("boom"))
      = (0, some ("AUTHY: insufficient data provided to create user")) :=
  (createUser_missingData (NewClient ⟨"s", ""⟩) ⟨"", "", "61", false⟩ (Or.inl rfl)
    (NetResult.doError ("boom")) (NetResult.doError ("boom"))).1

/-- C3: `CreateUser` with non-empty cellphone and country code, when the POST
succeeds at the transport level: a success envelope returns the envelope's
user id with no error; a non-success envelope returns 0 with an error whose
text contains the envelope's message. -/
theorem createUser_envelope (c : Client) (au : AuthyUser)
    (hc : au.Cellphone ≠ "") (hcc : au.CountryCode ≠ "")
    (stat : Nat) (d : DecodeResult ResponseMessage) :
    (d.value.Success = true →
        c.CreateUser au (NetResult.gotBody stat d) = (d.value.User.ID, none)) ∧
    (d.value.Success = false →
        c.CreateUser au (NetResult.gotBody stat d)
          = (0, some ("AUTHY: create not successful " ++ d.value.Message)) ∧
        ∃ pre suf, ("AUTHY: create not successful " ++ d.value.Message)
          = pre ++ d.value.Message ++ suf) := by
  constructor
  · intro hs
    simp [Client.CreateUser, Client.Post, hc, hcc, hs]
  · intro hs
    refine ⟨by simp [Client.CreateUser, Client.Post, hc, hcc, hs],
      "AUTHY: create not successful ", "", ?_⟩
    simp

/-- C3 witness: a concrete successful user creation returning the assigned
id. -/
theorem createUser_envelope_witness :
    (NewClient ⟨"s", ""⟩).CreateUser ⟨"", "111111111", "61", false⟩
        (NetResult.gotBody 201
          ⟨none, ⟨authyAppInfo.zero, ⟨12345⟩, status.zero, device.zero, "", "", true⟩⟩)
      = (12345, none) :=
  (createUser_envelope (NewClient ⟨"s", ""⟩) ⟨"", "111111111", "61", false⟩
    (by decide) (by decide) 201
    ⟨none, ⟨authyAppInfo.zero, ⟨12345⟩, status.zero, device.zero, "", "", true⟩⟩).1 rfl

/-- C6: when the round trip succeeds and the body is read, `Get` and `Post`
return a nil error whatever the `json.Unmarshal` outcome — decode failures
are swallowed, and the target resource is left with whatever the decode
produced. -/
theorem getPost_swallowDecode {α : Type} (c : Client) (relPath : String) (b : ReqBody)
    (init : α) (stat : Nat) (d : DecodeResult α) :
    c.Get relPath init (NetResult.gotBody stat d) = (d.value, none) ∧
    c.Post relPath b init (NetResult.gotBody stat d) = (d.value, none) :=
  ⟨rfl, rfl⟩

/-- C8: `RemoveUser`, when the POST succeeds at the transport level, returns
an error whose text is exactly the envelope's message on a non-success
envelope, and nil on a success envelope. -/
theorem removeUser_envelope (c : Client) (id : Int) (stat : Nat)
    (d : DecodeResult ResponseMessage) :
    (d.value.Success = false →
        c.RemoveUser id (NetResult.gotBody stat d) = some d.value.Message) ∧
    (d.value.Success = true → c.RemoveUser id (NetResult.gotBody stat d) = none) := by
  constructor <;> intro hs <;> simp [Client.RemoveUser, Client.Post, hs]

/-- C8 witness: a concrete non-success removal surfacing the provider
message. -/
theorem removeUser_envelope_witness :
    (NewClient ⟨"s", ""⟩).RemoveUser 7
        (NetResult.gotBody 200
          ⟨none, ⟨authyAppInfo.zero, user.zero, status.zero, device.zero, "", "no user", false⟩⟩)
      = some ("no user") :=
  (removeUser_envelope (NewClient ⟨"s", ""⟩) 7 200
    ⟨none, ⟨authyAppInfo.zero, user.zero, status.zero, device.zero, "", "no user", false⟩⟩).1 rfl

/-- C10: `GetAppInfo` never returns an error, and on a transport failure or a
body-read failure of the inner `Get` it returns the zero-valued envelope. -/
theorem getAppInfo_nilError (c : Client) (net : NetResult ResponseMessage) :
    (c.GetAppInfo net).2 = none ∧
    (∀ m, c.GetAppInfo (NetResult.doError m) = (ResponseMessage.zero, none)) ∧
    (∀ stat m, c.GetAppInfo (NetResult.readError stat m) = (ResponseMessage.zero, none)) :=
  ⟨rfl, fun _ => rfl, fun _ _ => rfl⟩

/-- C7 counterexample: the claim as stated — in particular that a non-empty
action-message argument is appended as an `action_message` query parameter —
fails at the concrete call `SendOTPWithAction(1, "", "m")`, whose path is
`sms/1` with no `action_message` parameter, because the code only appends the
action message inside the non-empty-action branch. -/
theorem sendOTPPath_claim_cex :
    ¬ (∀ (id : Int) (action actionMessage : String),
        (action ≠ "" → strHasSub (sendOTPPath id action actionMessage) ("action=") = true) ∧
        (actionMessage ≠ "" →
            strHasSub (sendOTPPath id action actionMessage) ("action_message=") = true) ∧
        (action = "" → actionMessage = "" →
            sendOTPPath id action actionMessage = "sms/" ++ toString id)) := by
  intro h
  have hx := (h 1 ("") ("m")).2.1 (by decide)
  revert hx
  decide

/-- C7 (amended): in `SendOTPWithAction`, a non-empty action argument is
appended to the path as an `action` query parameter, and a non-empty
action-message argument is appended as an `action_message` query parameter
only when the action is also non-empty; whenever the action is empty (the
action message included) the path is exactly `sms/{id}` with no query
string. -/
theorem sendOTPPath_spec (id : Int) (action actionMessage : String) :
    (action ≠ "" → actionMessage ≠ "" →
        sendOTPPath id action actionMessage
          = "sms/" ++ toString id ++ "?action=" ++ action
              ++ "&action_message=" ++ actionMessage) ∧
    (action ≠ "" → actionMessage = "" →
        sendOTPPath id action actionMessage
          = "sms/" ++ toString id ++ "?action=" ++ action) ∧
    (action = "" → sendOTPPath id action actionMessage = "sms/" ++ toString id) := by
  refine ⟨fun h1 h2 => ?_, fun h1 h2 => ?_, fun h1 => ?_⟩
  · simp [sendOTPPath, h1, h2]
  · simp [sendOTPPath, h1, h2]
  · simp [sendOTPPath, h1]

/-- C7 witness: a concrete call with both parameters non-empty. -/
theorem sendOTPPath_spec_witness :
    sendOTPPath 5 ("login") ("hi") = "sms/5?action=login&action_message=hi" := by
  have h := (sendOTPPath_spec 5 ("login") ("hi")).1 (by decide) (by decide)
  rw [h]
  decide

end Authy
